import Mathlib

/-!
Verification development for the request-validation and security-enforcement
pipeline of the cortex-ai gateway (Python sources under `app/`).

The Python code is shallowly embedded: each method becomes an executable
Lean function, translated statement by statement from the source.
Python strings are Lean `String`s, Python `list`s are Lean `List`s,
Python `None`-able values are modelled by an explicit `PyVal` type, and
operations that can raise in Python are `Option`-valued.  Regular
expressions from the source are hand-translated, pattern by pattern, into
an executable backtracking matcher (`MElem` / `mlen`) whose semantics
mirrors `re.search` / `re.findall` for exactly the constructs those
patterns use (case-insensitive literals, `\s*`, `\s+`, `\s`, `\b`, `$`,
`.*` without DOTALL, optional single characters, and the four capturing
groups `(all\s+)?` of the prompt validator).
-/

namespace CortexAI

/-- The apostrophe character (written via its code point). -/
def squoteC : Char := Char.ofNat 39

/-- The apostrophe as a one-character string. -/
def sq : String := String.singleton squoteC

/-- The backtick character (written via its code point). -/
def backtickC : Char := Char.ofNat 96

/-- Python `str.isspace`-style test for the ASCII whitespace characters
recognised by `str.strip()` and by the regex class `\s`
(space, tab, newline, carriage return, vertical tab, form feed). -/
def pyIsSpace (c : Char) : Bool :=
  c = ' ' || c = '\t' || c = '\n' || c = '\r' || c = Char.ofNat 11 || c = Char.ofNat 12

/-- Python's `\w` word-character class restricted to ASCII:
letters, digits and underscore (used for `\b` word boundaries). -/
def isWordChar (c : Char) : Bool :=
  c.isAlpha || c.isDigit || c = '_'

/-- `listIsPrefixOf n h`: is `n` a prefix of `h`? -/
def listIsPrefixOf : List Char → List Char → Bool
  | [], _ => true
  | _ :: _, [] => false
  | c :: cs, d :: ds => c = d && listIsPrefixOf cs ds

/-- `listContainsSub n h`: does `n` occur as a contiguous sublist of `h`?
This is Python's `n in h` on strings. -/
def listContainsSub (n h : List Char) : Bool :=
  listIsPrefixOf n h ||
    match h with
    | [] => false
    | _ :: hs => listContainsSub n hs

/-- Python `needle in haystack` (substring containment). -/
def pyIn (needle hay : String) : Bool := listContainsSub needle.data hay.data

/-- Python `s.startswith(pre)`. -/
def pyStartswith (s pre : String) : Bool := listIsPrefixOf pre.data s.data

/-- Python `s.endswith(suf)`. -/
def pyEndswith (s suf : String) : Bool := listIsPrefixOf suf.data.reverse s.data.reverse

/-- Python `s.strip()` on a character list: drop whitespace from both ends. -/
def pyStripList (l : List Char) : List Char :=
  ((l.dropWhile pyIsSpace).reverse.dropWhile pyIsSpace).reverse

/-- Python `s.strip()`. -/
def pyStrip (s : String) : String := ⟨pyStripList s.data⟩

/-- Python `s.upper()` (ASCII letters; the inputs of interest are ASCII). -/
def pyUpper (s : String) : String := ⟨s.data.map Char.toUpper⟩

/-- Python `s.lower()` (ASCII letters; the inputs of interest are ASCII). -/
def pyLower (s : String) : String := ⟨s.data.map Char.toLower⟩

/-- Python `s.count(c)` for a single-character needle. -/
def countChar (s : String) (c : Char) : Nat :=
  s.data.countP (· = c)

/-- Case-insensitive character comparison (ASCII), as under `re.IGNORECASE`. -/
def ciEq (a b : Char) : Bool := a.toLower = b.toLower

/-- Elements of the hand-translated regular expressions used by the source.
Only the constructs that actually occur in the source patterns are modelled:
case-insensitive literal characters, `\s*`, `\s+`, a single `\s`, the word
boundary `\b`, the end anchor `$` (no MULTILINE for the prompt patterns),
`.*` (DOTALL is never set, so `.` excludes newline) and an optional single
character such as `\(?`. -/
inductive MElem
  | ch (c : Char)
  | optCh (c : Char)
  | ws0
  | ws1
  | wsc
  | wb
  | eos
  | anyStar
  deriving Repr

/-- A case-insensitive literal, as a sequence of matcher elements. -/
def litE (s : String) : List MElem := s.data.map MElem.ch

/-- Word-boundary test between the previous character (`none` at the string
edge) and the next character, as for `\b`. -/
def isBoundary (prev next : Option Char) : Bool :=
  let w : Option Char → Bool := fun o => match o with
    | some c => isWordChar c
    | none => false
  w prev != w next

/-- Backtracking matcher: `mlenF fuel es prev s` returns the number of
characters of `s` consumed by a greedy leftmost match of the element
sequence `es` starting at the current position (`prev` is the character
just before that position, for `\b`), or `none` if the sequence does not
match here.  Greedy sub-expressions (`\s*`, `\s+`, `.*`) try the longer
continuation first and backtrack, mirroring `re` semantics for these
patterns.

The recursion is structural on an explicit `fuel` so that the kernel can
evaluate it; every recursive call decreases the lexicographic measure
`(s.length, es.length)` while `es` never grows beyond its initial length,
so the fuel chosen by the `mlen` wrapper below strictly bounds the
recursion depth and the `fuel = 0` branch is unreachable from it. -/
def mlenF : Nat → List MElem → Option Char → List Char → Option Nat
  | 0, _, _, _ => none
  | _ + 1, [], _, _ => some 0
  | fuel + 1, .ch c :: es, _, d :: ds =>
      if ciEq c d then (mlenF fuel es (some d) ds).map (· + 1) else none
  | _ + 1, .ch _ :: _, _, [] => none
  | fuel + 1, .optCh c :: es, prev, d :: ds =>
      if ciEq c d then
        match mlenF fuel es (some d) ds with
        | some n => some (n + 1)
        | none => mlenF fuel es prev (d :: ds)
      else mlenF fuel es prev (d :: ds)
  | fuel + 1, .optCh _ :: es, prev, [] => mlenF fuel es prev []
  | fuel + 1, .ws0 :: es, prev, d :: ds =>
      if pyIsSpace d then
        match mlenF fuel (.ws0 :: es) (some d) ds with
        | some n => some (n + 1)
        | none => mlenF fuel es prev (d :: ds)
      else mlenF fuel es prev (d :: ds)
  | fuel + 1, .ws0 :: es, prev, [] => mlenF fuel es prev []
  | fuel + 1, .ws1 :: es, _, d :: ds =>
      if pyIsSpace d then
        match mlenF fuel (.ws0 :: es) (some d) ds with
        | some n => some (n + 1)
        | none => none
      else none
  | _ + 1, .ws1 :: _, _, [] => none
  | fuel + 1, .wsc :: es, _, d :: ds =>
      if pyIsSpace d then (mlenF fuel es (some d) ds).map (· + 1) else none
  | _ + 1, .wsc :: _, _, [] => none
  | fuel + 1, .wb :: es, prev, s =>
      if isBoundary prev s.head? then mlenF fuel es prev s else none
  | fuel + 1, .eos :: es, prev, s =>
      if s = [] || s = ['\n'] then mlenF fuel es prev s else none
  | fuel + 1, .anyStar :: es, prev, d :: ds =>
      if d ≠ '\n' then
        match mlenF fuel (.anyStar :: es) (some d) ds with
        | some n => some (n + 1)
        | none => mlenF fuel es prev (d :: ds)
      else mlenF fuel es prev (d :: ds)
  | fuel + 1, .anyStar :: es, prev, [] => mlenF fuel es prev []

/-- `mlenF` with fuel exceeding the recursion-depth bound
`s.length * (es.length + 1) + es.length`. -/
def mlen (es : List MElem) (prev : Option Char) (s : List Char) : Option Nat :=
  mlenF ((s.length + 1) * (es.length + 1) + es.length + 1) es prev s

/-- `re.search` on a character list: does `es` match at some position?
`prev` is the character before the current position. -/
def msearchList (es : List MElem) : Option Char → List Char → Bool
  | prev, [] => (mlen es prev []).isSome
  | prev, c :: rest => (mlen es prev (c :: rest)).isSome || msearchList es (some c) rest

/-- `re.search(pattern, s)` as a Boolean, for a single hand-translated
pattern. -/
def msearch (es : List MElem) (s : String) : Bool := msearchList es none s.data

/-- Count non-overlapping matches of `es` (as `len(re.findall(...))` does),
scanning left to right and resuming after each match; the scanner advances
at least one position per step, so the fuel `s.length + 1` supplied by the
wrapper bounds the recursion and the `fuel = 0` branch is unreachable. -/
def countMatchesF (es : List MElem) : Nat → Option Char → List Char → Nat
  | 0, _, _ => 0
  | _ + 1, prev, [] => if (mlen es prev []).isSome then 1 else 0
  | fuel + 1, prev, c :: rest =>
      match mlen es prev (c :: rest) with
      | some n =>
          let k := max n 1
          1 + countMatchesF es fuel ((c :: rest).get? (k - 1)) (List.drop k (c :: rest))
      | none => countMatchesF es fuel (some c) rest

/-- `len(re.findall(es, s))` for a pattern without capturing groups. -/
def countMatches (es : List MElem) (s : String) : Nat :=
  countMatchesF es (s.data.length + 1) none s.data

/-! ## SQLValidator (`app/utils/validators.py`) -/

/-- Matcher for the stacked-statement patterns `;\s*KEYWORD\s+`. -/
def semiKw (kw : String) : List MElem := .ch ';' :: .ws0 :: (litE kw ++ [.ws1])

/-- The pattern source `\bor\s+'1'\s*=\s*'1'` (resp. `and`), built with the
apostrophe written via its code point. -/
def tautologyQuotedSrc (conj : String) : String :=
  "\\b" ++ conj ++ "\\s+" ++ sq ++ "1" ++ sq ++ "\\s*=\\s*" ++ sq ++ "1" ++ sq

/-- Matcher for `\b(or|and)\s+'1'\s*=\s*'1'`. -/
def tautologyQuotedPat (conj : String) : List MElem :=
  [.wb] ++ litE conj ++
    [.ws1, .ch squoteC, .ch '1', .ch squoteC, .ws0, .ch '=', .ws0,
     .ch squoteC, .ch '1', .ch squoteC]

/-- `SQLValidator.DANGEROUS_PATTERNS`: each entry pairs the regex source
text (used verbatim in the violation message) with its hand-translated
matcher.  `\bUNION\s+(?:ALL\s+)?SELECT\b` is expanded into its two
alternatives, which is search-equivalent; the trailing `\(?` of the `EXEC`
pattern is kept as an optional character. -/
def sqlDangerousPatterns : List (String × (String → Bool)) :=
  [ (";\\s*DROP\\s+", msearch (semiKw "DROP")),
    (";\\s*DELETE\\s+", msearch (semiKw "DELETE")),
    (";\\s*INSERT\\s+", msearch (semiKw "INSERT")),
    (";\\s*UPDATE\\s+", msearch (semiKw "UPDATE")),
    (";\\s*ALTER\\s+", msearch (semiKw "ALTER")),
    (";\\s*CREATE\\s+", msearch (semiKw "CREATE")),
    (";\\s*TRUNCATE\\s+", msearch (semiKw "TRUNCATE")),
    (";\\s*EXEC\\s*\\(?", msearch (.ch ';' :: .ws0 :: (litE "EXEC" ++ [.ws0, .optCh '(']))),
    (";\\s*EXECUTE\\s+", msearch (semiKw "EXECUTE")),
    ("\\bUNION\\s+(?:ALL\\s+)?SELECT\\b", fun s =>
      msearch ([.wb] ++ litE "UNION" ++ [.ws1] ++ litE "SELECT" ++ [.wb]) s ||
      msearch ([.wb] ++ litE "UNION" ++ [.ws1] ++ litE "ALL" ++ [.ws1] ++
        litE "SELECT" ++ [.wb]) s),
    ("\\bINTO\\s+OUTFILE\\b", msearch ([.wb] ++ litE "INTO" ++ [.ws1] ++ litE "OUTFILE" ++ [.wb])),
    ("\\bINTO\\s+DUMPFILE\\b", msearch ([.wb] ++ litE "INTO" ++ [.ws1] ++ litE "DUMPFILE" ++ [.wb])),
    ("\\bLOAD\\s+DATA\\b", msearch ([.wb] ++ litE "LOAD" ++ [.ws1] ++ litE "DATA" ++ [.wb])),
    ("\\bLOAD_FILE\\s*\\(", msearch ([.wb] ++ litE "LOAD_FILE" ++ [.ws0, .ch '('])),
    ("\\bBENCHMARK\\s*\\(", msearch ([.wb] ++ litE "BENCHMARK" ++ [.ws0, .ch '('])),
    ("\\bSLEEP\\s*\\(", msearch ([.wb] ++ litE "SLEEP" ++ [.ws0, .ch '('])),
    ("\\bWAITFOR\\s+DELAY\\b", msearch ([.wb] ++ litE "WAITFOR" ++ [.ws1] ++ litE "DELAY" ++ [.wb])),
    ("--", msearch (litE "--")),
    ("#", msearch [.ch '#']),
    ("/\\*.*?\\*/", msearch (litE "/*" ++ [.anyStar] ++ litE "*/")),
    (";\\s*--", msearch (.ch ';' :: .ws0 :: litE "--")),
    ("\\bor\\s+1\\s*=\\s*1\\b", msearch ([.wb] ++ litE "or" ++
      [.ws1, .ch '1', .ws0, .ch '=', .ws0, .ch '1', .wb])),
    ("\\band\\s+1\\s*=\\s*1\\b", msearch ([.wb] ++ litE "and" ++
      [.ws1, .ch '1', .ws0, .ch '=', .ws0, .ch '1', .wb])),
    (tautologyQuotedSrc "or", msearch (tautologyQuotedPat "or")),
    (tautologyQuotedSrc "and", msearch (tautologyQuotedPat "and")) ]

/-- Violation-message prefix for a dangerous-pattern match. -/
def dangerMsg (src : String) : String := "Query contains dangerous pattern: " ++ src

/-- The multiple-statements violation message. -/
def multiStmtMsg : String := "Multiple SQL statements are not allowed"

/-- `SQLValidator.validate`, translated statement by statement from
`app/utils/validators.py`. -/
def SQLValidator.validate (allow_only_select : Bool) (sql : String) : Bool × List String :=
  if sql = "" || pyStrip sql = "" then
    (false, ["Query cannot be empty"])
  else
    let sql_upper := pyStrip (pyUpper sql)
    if allow_only_select && !(pyStartswith sql_upper "SELECT") then
      (false, ["Only SELECT queries are allowed"])
    else
      let dangerErrs := (sqlDangerousPatterns.filter (fun p => p.2 sql)).map
        (fun p => dangerMsg p.1)
      let multiErrs := if pyIn ";" sql && !(pyEndswith (pyStrip sql) ";") then
        [multiStmtMsg] else []
      let single_quotes := countChar sql squoteC
      let double_quotes := countChar sql '"'
      -- the source also computes `backticks = sql.count("`")` and never uses it
      let _backticks := countChar sql backtickC
      let sqErrs := if single_quotes % 2 ≠ 0 then ["Imbalanced single quotes detected"] else []
      let dqErrs := if double_quotes % 2 ≠ 0 then ["Imbalanced double quotes detected"] else []
      let lenErrs := if 10000 < sql.length then ["Query too long (max 10000 characters)"] else []
      let union_count := countMatches ([.wb] ++ litE "UNION" ++ [.wb]) sql
      let unionErrs := if 5 < union_count then ["Too many UNION statements (max 5)"] else []
      let errors := dangerErrs ++ multiErrs ++ sqErrs ++ dqErrs ++ lenErrs ++ unionErrs
      (errors.isEmpty, errors)

/-! ## PromptValidator (`app/utils/prompt_validator.py`)

The validator joins its `DANGEROUS_PATTERNS` with `|` and compiles once.
Four of the alternatives (`ignore/disregard/forget/override ...
(all\s+)?previous instructions`) contain a capturing group, so Python's
`findall` on the joined pattern returns, for every match, the 4-tuple of
captured-group texts (an empty string for a group that did not
participate) — not the matched text. -/

/-- The capture-group tuple that `findall` yields per match of the joined
prompt pattern (one component per capturing group, in pattern order:
ignore, disregard, forget, override). -/
abbrev G4 := String × String × String × String

/-- One alternative of the joined prompt regex: given the previous
character and the remaining input, a leftmost greedy match yields the
consumed length and the capture-group tuple. -/
def PromptAlt := Option Char → List Char → Option (Nat × G4)

/-- An alternative with no capturing group. -/
def plainAlt (es : List MElem) : PromptAlt :=
  fun prev s => (mlen es prev s).map (fun n => (n, ("", "", "", "")))

/-- Consume a case-insensitive literal, returning the rest of the input. -/
def ciConsume : List Char → List Char → Option (List Char)
  | [], s => some s
  | c :: cs, d :: ds => if ciEq c d then ciConsume cs ds else none
  | _ :: _, [] => none

/-- Number of leading whitespace characters (the greedy extent of `\s+`;
no backtracking is needed in the override patterns because the following
literal starts with a non-space letter). -/
def wsCount : List Char → Nat
  | [] => 0
  | c :: rest => if pyIsSpace c then wsCount rest + 1 else 0

/-- Match `previous\s+instructions` at the current position, returning the
consumed length. -/
def prevInstrLen (s : List Char) : Option Nat :=
  match ciConsume "previous".data s with
  | none => none
  | some r1 =>
    let k := wsCount r1
    if k = 0 then none
    else
      match ciConsume "instructions".data (r1.drop k) with
      | none => none
      | some _ => some (8 + k + 12)

/-- Match `VERB\s+(all\s+)?previous\s+instructions` at the current
position; the optional group is tried first (greedy), and the returned
capture is the actual input text matched by `(all\s+)`, or `none` when the
group did not participate. -/
def overrideRun (verb : String) : Option Char → List Char → Option (Nat × Option String) :=
  fun _ s =>
    match ciConsume verb.data s with
    | none => none
    | some r1 =>
      let k := wsCount r1
      if k = 0 then none
      else
        let r2 := r1.drop k
        let viaGroup : Option (Nat × Option String) :=
          match ciConsume "all".data r2 with
          | none => none
          | some r3 =>
            let k2 := wsCount r3
            if k2 = 0 then none
            else
              match prevInstrLen (r3.drop k2) with
              | none => none
              | some m =>
                  some (verb.length + k + 3 + k2 + m, some ⟨r2.take (3 + k2)⟩)
        match viaGroup with
        | some res => some res
        | none =>
          match prevInstrLen r2 with
          | none => none
          | some m => some (verb.length + k + m, none)

/-- The `ignore ...` alternative (capturing group 1). -/
def altIgnore : PromptAlt := fun prev s =>
  (overrideRun "ignore" prev s).map (fun p => (p.1, (p.2.getD "", "", "", "")))

/-- The `disregard ...` alternative (capturing group 2). -/
def altDisregard : PromptAlt := fun prev s =>
  (overrideRun "disregard" prev s).map (fun p => (p.1, ("", p.2.getD "", "", "")))

/-- The `forget ...` alternative (capturing group 3). -/
def altForget : PromptAlt := fun prev s =>
  (overrideRun "forget" prev s).map (fun p => (p.1, ("", "", p.2.getD "", "")))

/-- The `override ...` alternative (capturing group 4). -/
def altOverride : PromptAlt := fun prev s =>
  (overrideRun "override" prev s).map (fun p => (p.1, ("", "", "", p.2.getD "")))

/-- `PromptValidator.DANGEROUS_PATTERNS`, hand-translated alternative by
alternative, in source order (including the duplicated `\bwget\s+`). -/
def promptAlts : List PromptAlt :=
  [ plainAlt ([.wb] ++ litE "rm" ++ [.ws1, .ch '-']),
    plainAlt ([.wb] ++ litE "rm" ++ [.ws1, .ch '/']),
    plainAlt ([.wb] ++ litE "rm" ++ [.ws1, .ch '.']),
    plainAlt ([.wb] ++ litE "mv" ++ [.ws1, .anyStar, .ws1] ++ litE "/etc"),
    plainAlt ([.wb] ++ litE "cp" ++ [.ws1, .anyStar, .ws1] ++ litE "/etc"),
    plainAlt ([.wb] ++ litE "ls" ++ [.ws1] ++ litE "/-"),
    plainAlt ([.wb] ++ litE "ls" ++ [.ws1] ++ litE "/etc"),
    plainAlt ([.wb] ++ litE "curl" ++ [.ws1]),
    plainAlt ([.wb] ++ litE "wget" ++ [.ws1]),
    plainAlt ([.wb] ++ litE "nc" ++ [.ws1]),
    plainAlt ([.wb] ++ litE "bash" ++ [.ws1, .ch '-']),
    plainAlt ([.wb] ++ litE "sh" ++ [.ws1, .ch '-']),
    plainAlt ([.wb] ++ litE "python" ++ [.ws1, .anyStar] ++ litE ".py"),
    plainAlt ([.wb] ++ litE "node" ++ [.ws1, .anyStar] ++ litE ".js"),
    plainAlt ([.wb] ++ litE "wget" ++ [.ws1]),
    plainAlt ([.wb] ++ litE "git" ++ [.ws1]),
    plainAlt ([.wb] ++ litE "sudo" ++ [.ws1]),
    plainAlt ([.wb] ++ litE "su" ++ [.ws1]),
    plainAlt (litE "../"),
    plainAlt (litE "/etc/passwd"),
    plainAlt (litE "/etc/shadow"),
    plainAlt (litE "/proc/"),
    plainAlt (litE "/sys/"),
    plainAlt (litE ".env" ++ [.wsc]),
    plainAlt (litE ".env" ++ [.eos]),
    plainAlt (litE "id_rsa"),
    plainAlt (litE ".ssh/"),
    plainAlt ([.ch '>', .ws0, .ch '/']),
    plainAlt (litE ">>" ++ [.ws0, .ch '/']),
    plainAlt (litE "eval" ++ [.ws0, .ch '(']),
    plainAlt (litE "exec" ++ [.ws0, .ch '(']),
    plainAlt (litE "system" ++ [.ws0, .ch '(']),
    plainAlt (litE "__import__" ++ [.ws0, .ch '(']),
    plainAlt (litE "subprocess" ++ [.ws0, .ch '(']),
    plainAlt (litE "os.system"),
    plainAlt (litE "popen"),
    altIgnore,
    altDisregard,
    altForget,
    altOverride,
    plainAlt (litE "new" ++ [.ws1] ++ litE "context" ++ [.ws0, .ch ':']),
    plainAlt (litE "change" ++ [.ws1] ++ litE "context" ++ [.ws0, .ch ':']),
    plainAlt (litE "instead" ++ [.ws1] ++ litE "of" ++ [.ws1] ++ litE "the" ++ [.ws1] ++ litE "above") ]

/-- Try the alternatives in order at the current position (Python
alternation prefers the first alternative that matches). -/
def tryAltsAux : List PromptAlt → Option Char → List Char → Option (Nat × G4)
  | [], _, _ => none
  | a :: rest, prev, s =>
      match a prev s with
      | some r => some r
      | none => tryAltsAux rest prev s

/-- The joined prompt pattern at one position. -/
def tryAlts (prev : Option Char) (s : List Char) : Option (Nat × G4) :=
  tryAltsAux promptAlts prev s

/-- `findall` scanner over the joined prompt pattern: scan left to right,
emit the capture tuple of each non-overlapping match and resume after it.
The scanner advances at least one position per step, so the fuel
`s.length + 1` supplied by `promptFindAll` bounds the recursion and the
`fuel = 0` branch is unreachable. -/
def promptScanF : Nat → Option Char → List Char → List G4
  | 0, _, _ => []
  | _ + 1, prev, [] =>
      match tryAlts prev [] with
      | some (_, g) => [g]
      | none => []
  | fuel + 1, prev, c :: rest =>
      match tryAlts prev (c :: rest) with
      | some (n, g) =>
          let k := max n 1
          g :: promptScanF fuel ((c :: rest).get? (k - 1)) (List.drop k (c :: rest))
      | none => promptScanF fuel (some c) rest

/-- `self.dangerous_regex.findall(prompt)`. -/
def promptFindAll (prompt : String) : List G4 :=
  promptScanF (prompt.data.length + 1) none prompt.data

/-- Python `repr` escaping of one character, for the character classes
that can occur in the strings rendered here (letters, digits, punctuation,
spaces and ASCII control whitespace; quotes and backslashes do not
occur). -/
def pyReprChar (c : Char) : String :=
  if c = '\t' then "\\t"
  else if c = '\n' then "\\n"
  else if c = '\r' then "\\r"
  else if c = Char.ofNat 11 then "\\x0b"
  else if c = Char.ofNat 12 then "\\x0c"
  else String.singleton c

/-- Python `repr` of a capture string. -/
def pyRepr (s : String) : String :=
  sq ++ String.join (s.data.map pyReprChar) ++ sq

/-- Python `str` of the 4-tuple of captures, as interpolated by the
f-string building the violation message. -/
def pyTupleStr (g : G4) : String :=
  "(" ++ pyRepr g.1 ++ ", " ++ pyRepr g.2.1 ++ ", " ++ pyRepr g.2.2.1 ++
    ", " ++ pyRepr g.2.2.2 ++ ")"

/-- The violation message for one `findall` match. -/
def promptDangerMsg (g : G4) : String :=
  "Potentially dangerous pattern detected: " ++ pyTupleStr g

/-- `suspicious_indicators` from `PromptValidator.validate`. -/
def suspiciousIndicators : List (String × String) :=
  [ ("also", "Multiple instructions"),
    ("then", "Command chaining"),
    ("after that", "Command chaining"),
    ("next,", "Command chaining"),
    ("finally", "Command chaining"),
    ("additionally", "Command chaining"),
    ("besides", "Command chaining"),
    ("create file", "File operation"),
    ("write to", "File operation"),
    ("save to", "File operation"),
    ("download", "External resource"),
    ("upload", "External resource"),
    ("fetch", "External resource"),
    ("install", "Package installation"),
    ("import", "Code import"),
    ("require", "Package require"),
    ("exec", "Code execution"),
    ("eval", "Code evaluation"),
    ("system", "System command") ]

/-- The data keywords consulted by `_is_suspicious_context`. -/
def contextDataKeywords : List String :=
  ["select", "show", "get", "find", "list", "count", "total",
   "users", "orders", "table", "dataset", "data", "query"]

/-- The data keywords consulted by `_is_query_related`. -/
def queryRelatedKeywords : List String :=
  ["select", "show", "get", "find", "list", "count", "total",
   "users", "orders", "table", "tables", "dataset", "data",
   "query", "sql", "row", "column", "revenue", "sales",
   "how many", "how much", "top", "bottom", "average", "sum"]

/-- `re.split(r'[.!?]+', prompt)`: split on maximal runs of sentence
punctuation.  `cur` is the (reversed) piece being accumulated; `inRun` is
true while inside a punctuation run (in which case `cur` is empty and the
piece boundary has already been emitted). -/
def splitSentGo (cur : List Char) (inRun : Bool) : List Char → List (List Char)
  | [] => [cur.reverse]
  | c :: rest =>
      if c = '.' || c = '!' || c = '?' then
        if inRun then splitSentGo [] true rest
        else cur.reverse :: splitSentGo [] true rest
      else splitSentGo (c :: cur) false rest

/-- The sentence list of a prompt. -/
def pySplitSentences (s : String) : List String :=
  (splitSentGo [] false s.data).map (fun l => ⟨l⟩)

/-- `PromptValidator._is_suspicious_context`. -/
def isSuspiciousContext (prompt indicator : String) : Bool :=
  (pySplitSentences prompt).any (fun sentence =>
    pyIn indicator (pyLower sentence) &&
    !(contextDataKeywords.any (fun kw => pyIn kw (pyLower sentence))))

/-- `PromptValidator._is_query_related`. -/
def isQueryRelated (prompt : String) : Bool :=
  queryRelatedKeywords.any (fun kw => pyIn kw (pyLower prompt))

/-- The violation message for a suspicious indicator. -/
def suspiciousMsg (ind reason : String) : String :=
  "Suspicious instruction detected: " ++ ind ++ " (" ++ reason ++ ")"

/-- `PromptValidator.validate`, translated statement by statement. -/
def PromptValidator.validate (prompt : String) : Bool × List String :=
  let errs1 :=
    if 2000 < prompt.length then ["Prompt too long (max 2000 characters)"] else []
  let dangerous_matches := promptFindAll prompt
  let errs2 := dangerous_matches.map promptDangerMsg
  let lower_prompt := pyLower prompt
  let errs3 :=
    (suspiciousIndicators.filter
      (fun p => pyIn p.1 lower_prompt && isSuspiciousContext prompt p.1)).map
      (fun p => suspiciousMsg p.1 p.2)
  let errs4 :=
    if !(isQueryRelated prompt) then
      ["Prompt does not appear to be data-related. Please ask questions about your data."]
    else []
  let errors := errs1 ++ errs2 ++ errs3 ++ errs4
  (errors.isEmpty, errors)

/-! ## Configuration (`app/config.py`) -/

/-- The settings consulted by the security pipeline. -/
structure Cfg where
  enable_query_cost_tracking : Bool
  enable_data_masking : Bool
  enable_pii_detection : Bool
  enable_audit_logging : Bool
  sensitive_columns : List String
  pii_keywords : List String
  max_query_bytes_processed : Nat
  rate_limit_per_minute : Nat

/-- The defaults declared in `app/config.py`. -/
def defaultCfg : Cfg where
  enable_query_cost_tracking := true
  enable_data_masking := true
  enable_pii_detection := true
  enable_audit_logging := true
  sensitive_columns :=
    ["email", "phone", "ssn", "social_security_number",
     "credit_card", "password", "secret", "token",
     "api_key", "access_key", "private_key"]
  pii_keywords :=
    ["password", "ssn", "social security", "credit card",
     "bank account", "pin", "secret", "private key",
     "access token", "api key", "personal data"]
  max_query_bytes_processed := 10000000000
  rate_limit_per_minute := 60

/-! ## Python values

Result-row values can be strings, numbers or `None`; the masker only ever
inspects truthiness and `str(value)`. -/

/-- A Python value as far as the masker is concerned. -/
inductive PyVal
  | none
  | str (s : String)
  | int (n : Int)
  deriving DecidableEq, Repr

/-- Python truthiness of a value. -/
def pyTruthy : PyVal → Bool
  | .none => false
  | .str s => s ≠ ""
  | .int n => n ≠ 0

/-- Python `str(value)`. -/
def pyStr : PyVal → String
  | .none => "None"
  | .str s => s
  | .int n => toString n

/-- A result row: a Python dict as an insertion-ordered association list;
`row.values()` is the list of second components. -/
abbrev Row := List (String × PyVal)

/-! ## DataMasker (`app/utils/security.py`)

Python list subscripts (`parts[0]`, `parts[1]`) are modelled with
`List.get?`, so each mask function is `Option`-valued: a `none` would be a
raised `IndexError`.  Totality of the masker is a theorem, not an
assumption. -/

/-- Python `s.split(sep)` for a one-character separator, on character
lists (`"".split("@") == [""]`, separators at the ends produce empty
pieces). -/
def pySplit (sep : Char) : List Char → List (List Char)
  | [] => [[]]
  | c :: rest =>
      if c = sep then [] :: pySplit sep rest
      else
        match pySplit sep rest with
        | p :: ps => (c :: p) :: ps
        | [] => [[c]]

/-- Python `sep.join(pieces)` for a one-character separator. -/
def joinSep (sep : Char) : List (List Char) → List Char
  | [] => []
  | [l] => l
  | l :: ls => l ++ sep :: joinSep sep ls

/-- `DataMasker._mask_email`. -/
def maskEmail (value : PyVal) : Option String :=
  if !(pyTruthy value) || value = PyVal.none then some "***@***.***"
  else
    let email := pyStr value
    let parts := pySplit '@' email.data
    if parts.length ≠ 2 then some "***@***.***"
    else do
      let username ← parts.get? 0
      let domain ← parts.get? 1
      let masked_username :=
        if 2 < username.length then (⟨username.take 2⟩ : String) ++ "***" else "***"
      let domain_parts := pySplit '.' domain
      let masked_domain :=
        if 2 ≤ domain_parts.length then
          "***." ++ (⟨joinSep '.' (domain_parts.drop (domain_parts.length - 2))⟩ : String)
        else "***.***"
      some (masked_username ++ "@" ++ masked_domain)

/-- `DataMasker._mask_phone` (slicing `phone[-4:]` cannot raise). -/
def maskPhone (value : PyVal) : Option String :=
  if !(pyTruthy value) || value = PyVal.none then some "***-***-****"
  else
    let phone := pyStr value
    if 4 ≤ phone.length then
      some ("***-***-" ++ ⟨phone.data.drop (phone.data.length - 4)⟩)
    else some "***-***-****"

/-- `DataMasker._mask_ssn`. -/
def maskSsn (_value : PyVal) : Option String := some "***-**-****"

/-- `DataMasker._mask_credit_card`. -/
def maskCreditCard (value : PyVal) : Option String :=
  if !(pyTruthy value) || value = PyVal.none then some "****-****-****-****"
  else
    let card := (pyStr value).data.filter (fun c => c ≠ '-' && c ≠ ' ')
    if 4 ≤ card.length then
      some ("****-****-****-" ++ ⟨card.drop (card.length - 4)⟩)
    else some "****-****-****-****"

/-- `DataMasker._mask_full`. -/
def maskFull (_value : PyVal) : Option String := some "***"

/-- `DataMasker._mask_generic`. -/
def maskGeneric (value : PyVal) : Option String :=
  if !(pyTruthy value) || value = PyVal.none then some "***"
  else
    let s := pyStr value
    if 1 < s.length then some (s.take 1 ++ "***") else some "***"

/-- `re.search(r'email', col)` — a plain substring test, as for each entry
of `sensitive_patterns` (alternations of literals). -/
def patEmail (col : String) : Bool := pyIn "email" col

/-- `re.search(r'phone', col)`. -/
def patPhone (col : String) : Bool := pyIn "phone" col

/-- `re.search(r'ssn|social_security', col)`. -/
def patSsn (col : String) : Bool := pyIn "ssn" col || pyIn "social_security" col

/-- `re.search(r'credit_card|card_number', col)`. -/
def patCredit (col : String) : Bool := pyIn "credit_card" col || pyIn "card_number" col

/-- `re.search(r'password|secret|token', col)`. -/
def patSecret (col : String) : Bool :=
  pyIn "password" col || pyIn "secret" col || pyIn "token" col

/-- `re.search(r'api_key|access_key|private_key', col)`. -/
def patApiKey (col : String) : Bool :=
  pyIn "api_key" col || pyIn "access_key" col || pyIn "private_key" col

/-- `DataMasker._is_sensitive_column`: direct substring match against the
configured sensitive-column names, then the typed patterns in order. -/
def isSensitiveColumn (cfg : Cfg) (column_name : String) : Bool :=
  let col_lower := pyLower column_name
  cfg.sensitive_columns.any (fun sensitive => pyIn sensitive col_lower) ||
    (patEmail col_lower || patPhone col_lower || patSsn col_lower ||
     patCredit col_lower || patSecret col_lower || patApiKey col_lower)

/-- `DataMasker._mask_value`: first matching typed pattern wins, else the
generic mask. -/
def maskValue (column_name : String) (value : PyVal) : Option String :=
  let col_lower := pyLower column_name
  if patEmail col_lower then maskEmail value
  else if patPhone col_lower then maskPhone value
  else if patSsn col_lower then maskSsn value
  else if patCredit col_lower then maskCreditCard value
  else if patSecret col_lower then maskFull value
  else if patApiKey col_lower then maskFull value
  else maskGeneric value

/-- Apply a fallible operation to every element of a list, failing if any
application fails (the `Option`-monad `mapM`, written structurally so the
kernel can evaluate it). -/
def mapMO {α β : Type} (f : α → Option β) : List α → Option (List β)
  | [] => some []
  | a :: as =>
      match f a, mapMO f as with
      | some b, some bs => some (b :: bs)
      | _, _ => Option.none

/-- `DataMasker.mask_data`: `zip(columns, row.values())` decides each
output cell; non-sensitive values pass through unchanged. -/
def maskData (cfg : Cfg) (data : List Row) (columns : List String) : Option (List Row) :=
  if !cfg.enable_data_masking then some data
  else
    mapMO (fun row =>
      mapMO (fun p =>
        if isSensitiveColumn cfg p.1 then
          (maskValue p.1 p.2).map (fun m => (p.1, PyVal.str m))
        else some (p.1, p.2))
        (columns.zip (row.map Prod.snd)))
      data

/-! ## PIIDetector (`app/utils/security.py`) -/

/-- `PIIDetector.contains_pii_request`. -/
def PIIDetector.containsPiiRequest (cfg : Cfg) (pii_keywords : List String)
    (prompt : String) : Bool × List String :=
  if !cfg.enable_pii_detection then (false, [])
  else
    let prompt_lower := pyLower prompt
    let detected := pii_keywords.filter (fun keyword => pyIn (pyLower keyword) prompt_lower)
    (decide (0 < detected.length), detected)

/-! ## QueryCostTracker (`app/utils/security.py`) -/

/-- The payload of the cost-limit error message (the source renders the two
figures in GB with `f"{...:.2f}"` float formatting, which is not modelled;
nothing downstream inspects the figures). -/
structure CostError where
  total_bytes_processed : Nat
  max_bytes : Nat
  deriving DecidableEq, Repr

/-- The human-readable part of the cost-limit error used downstream (the
interpolated GB figures are omitted; they contain none of the substrings
the exception re-mapping probes for). -/
def costErrMsg (_ce : CostError) : String :=
  "Query cost limit exceeded. Please add more filters to reduce data processed."

/-- `QueryCostTracker.check_cost_limits` (the `api_key` argument is only
logged). -/
def QueryCostTracker.checkCostLimits (cfg : Cfg) (max_bytes : Nat)
    (total_bytes_processed : Nat) (_api_key : String) : Bool × Option CostError :=
  if !cfg.enable_query_cost_tracking then (true, none)
  else if max_bytes < total_bytes_processed then
    (false, some ⟨total_bytes_processed, max_bytes⟩)
  else (true, none)

/-! ## RateLimiter (`app/middleware/security.py`)

Timestamps are integers (`datetime.now()` instants in seconds);
`timedelta(minutes=1)` is the constant 60. -/

/-- `RateLimiter.is_allowed` for one identifier's window: prune entries
older than one minute (`req_time > minute_ago` is kept), deny without
appending when the remaining count is at or above the ceiling, otherwise
append the current instant and allow. -/
def RateLimiter.isAllowed (requests_per_minute : Nat) (window : List Int)
    (now : Int) : Bool × List Int :=
  let pruned := window.filter (fun req_time => now - 60 < req_time)
  if requests_per_minute ≤ pruned.length then (false, pruned)
  else (true, pruned ++ [now])

/-- `RateLimiter.is_allowed` over the full identifier map
(`self.requests`; a Python dict with an absent key behaves like the
total map defaulting to `[]`). -/
def RateLimiter.isAllowedMap (requests_per_minute : Nat)
    (requests : String → List Int) (identifier : String) (now : Int) :
    Bool × (String → List Int) :=
  let r := RateLimiter.isAllowed requests_per_minute (requests identifier) now
  (r.1, Function.update requests identifier r.2)

/-- A sequence of `is_allowed` calls for one identifier at the given
instants, collecting the results and the final window. -/
def runCalls (requests_per_minute : Nat) (st : List Int) :
    List Int → List Bool × List Int
  | [] => ([], st)
  | t :: ts =>
      let r := RateLimiter.isAllowed requests_per_minute st t
      let k := runCalls requests_per_minute r.2 ts
      (r.1 :: k.1, k.2)

/-! ## AuditLogger (`app/utils/security.py`)

`log_query` and `log_ai_agent_request` each emit one structured entry
through the logging sink (hashed SQL/prompt/key and metadata); only the
entry itself, its success flag and its error text matter here. Both are
no-ops when audit logging is disabled. -/

/-- One emitted audit entry. -/
inductive AuditEvent
  | queryLog (success : Bool) (error : Option String)
  | aiAgentLog (validation_passed : Bool)
  deriving DecidableEq, Repr

/-- `AuditLogger.log_query`: the entries it emits. -/
def AuditLogger.logQuery (cfg : Cfg) (success : Bool) (error : Option String) :
    List AuditEvent :=
  if !cfg.enable_audit_logging then [] else [.queryLog success error]

/-! ## The `/query` handler (`app/api/query.py`)

`execute_query` raises `fastapi.HTTPException` *inside* its `try` block;
`HTTPException` is a subclass of `Exception`, so the handler's own broad
`except Exception` catches it, logs a second audit entry with
`error=str(e)`, and re-raises according to substring probes on `str(e)`.
The embedding renders each `raise` as an `Except.error` that flows to the
translated `except` block. -/

/-- A raised Python exception: an `HTTPException` (status, error code,
message and the `details.errors` list of the detail dict) or any other
exception with its message. -/
inductive PyExc
  | http (status : Nat) (error_code : String) (message : String) (details : List String)
  | generic (message : String)
  deriving DecidableEq, Repr

/-- Python `str(e)`: for `starlette.exceptions.HTTPException` this is
`f"{status_code}: {detail}"` with the detail dict rendered by `repr`. -/
def strOfExc : PyExc → String
  | .generic m => m
  | .http status code message details =>
      toString status ++ ": \x7b" ++ pyRepr "error_code" ++ ": " ++ pyRepr code ++
        ", " ++ pyRepr "message" ++ ": " ++ pyRepr message ++
        ", " ++ pyRepr "details" ++ ": \x7b" ++ pyRepr "errors" ++ ": [" ++
        String.intercalate ", " (details.map pyRepr) ++ "]\x7d\x7d"

/-- The `except Exception` re-mapping of `execute_query`: probe
`error_message = str(e)` for substrings and choose the outgoing status and
error code. -/
def remapExc (e : PyExc) : Nat × String :=
  let error_message := strOfExc e
  if pyIn "Not found" error_message || pyIn "does not exist" error_message then
    (404, "RESOURCE_NOT_FOUND")
  else if pyIn "syntax" (pyLower error_message) then (400, "SYNTAX_ERROR")
  else if pyIn "quota" (pyLower error_message) then (429, "QUOTA_EXCEEDED")
  else (500, "QUERY_EXECUTION_FAILED")

/-- What the opaque BigQuery executor returned for this request. -/
structure BqResult where
  data : List Row
  columns : List String
  row_count : Nat
  total_bytes_processed : Nat

/-- The successful response body of `/query` (status/metadata fields other
than the masked data are not modelled). -/
structure QueryResponse where
  data : List Row
  row_count : Nat
  columns : List String

/-- What the client observes: a success response, or an HTTP error with
its status and error code. -/
inductive HandlerResult
  | ok (resp : QueryResponse)
  | err (status : Nat) (error_code : String)

/-- The outgoing status code of a handler result (200 on success). -/
def HandlerResult.status : HandlerResult → Nat
  | .ok _ => 200
  | .err s _ => s

/-- `execute_query` from `app/api/query.py`, as a function of the
configuration, the submitted SQL and the outcome of the external BigQuery
call; returns the client-visible result and the list of audit entries
emitted, in order. -/
def executeQuery (cfg : Cfg) (sql : String) (bq : Except String BqResult) :
    HandlerResult × List AuditEvent :=
  -- the `try` block: its `raise` statements become `Except.error`s
  let body : Except PyExc QueryResponse × List AuditEvent :=
    let v := SQLValidator.validate true sql
    if !v.1 then
      let evs := AuditLogger.logQuery cfg false (some "SQL validation failed")
      (.error (.http 400 "INVALID_QUERY" "Query validation failed" v.2), evs)
    else
      match bq with
      | .error msg => (.error (.generic msg), [])
      | .ok result =>
        let total_bytes := result.total_bytes_processed
        let c := QueryCostTracker.checkCostLimits cfg cfg.max_query_bytes_processed
          total_bytes "api-key"
        if !c.1 then
          -- `cost_error` is always a string here (`within_limits=False`
          -- is returned together with the message)
          let cost_error := match c.2 with | some ce => costErrMsg ce | none => "None"
          let evs := AuditLogger.logQuery cfg false (some cost_error)
          (.error (.http 429 "COST_LIMIT_EXCEEDED" cost_error []), evs)
        else
          match maskData cfg result.data result.columns with
          | none => (.error (.generic "IndexError"), [])
          | some masked_data =>
            let evs := AuditLogger.logQuery cfg true none
            (.ok ⟨masked_data, result.row_count, result.columns⟩, evs)
  -- the `except Exception` block: one more audit entry, then the re-raise
  match body with
  | (.ok resp, evs) => (.ok resp, evs)
  | (.error e, evs) =>
      let evs2 := evs ++ AuditLogger.logQuery cfg false (some (strOfExc e))
      let r := remapExc e
      (.err r.1 r.2, evs2)

/-! ## Validator objects, with their state threaded explicitly

Each Python `validate` method reads attributes of its object (and the
module-level `settings`) and assigns none of them; the embeddings below
translate the methods as state transformers so that the absence of hidden
mutation is a statement, not a convention. -/

/-- The attributes of a `SQLValidator` instance. -/
structure SQLValidatorObj where
  allow_only_select : Bool
  deriving DecidableEq

/-- `SQLValidator.validate` as a state transformer: the body reads
`self.allow_only_select` and assigns no attribute. -/
def SQLValidator.validateS (self : SQLValidatorObj) (sql : String) :
    (Bool × List String) × SQLValidatorObj :=
  (SQLValidator.validate self.allow_only_select sql, self)

/-- The attributes of a `PromptValidator` instance: only the regex
compiled once from the fixed class-level pattern list. -/
structure PromptValidatorObj where
  dangerous_regex : List PromptAlt

/-- A freshly constructed `PromptValidator` (`__init__` compiles the
class-level patterns). -/
def PromptValidatorObj.mk' : PromptValidatorObj := ⟨promptAlts⟩

/-- `PromptValidator.validate` as a state transformer: the body uses the
compiled regex and assigns no attribute. -/
def PromptValidator.validateS (self : PromptValidatorObj) (prompt : String) :
    (Bool × List String) × PromptValidatorObj :=
  (PromptValidator.validate prompt, self)

/-- The attributes of a `PIIDetector` instance. -/
structure PIIDetectorObj where
  pii_keywords : List String
  deriving DecidableEq

/-- `PIIDetector.contains_pii_request` as a state transformer: the body
reads `settings.enable_pii_detection` and `self.pii_keywords` and assigns
no attribute. -/
def PIIDetector.containsPiiRequestS (cfg : Cfg) (self : PIIDetectorObj)
    (prompt : String) : (Bool × List String) × PIIDetectorObj :=
  (PIIDetector.containsPiiRequest cfg self.pii_keywords prompt, self)

/-- The attributes of a `DataMasker` instance (its pattern table is the
fixed class-level list). -/
structure DataMaskerObj where
  sensitive_columns : List String
  deriving DecidableEq

/-- `DataMasker.mask_data` as a state transformer: the body reads
`settings.enable_data_masking` and the object's rule table and assigns no
attribute. -/
def maskDataS (cfg : Cfg) (self : DataMaskerObj) (data : List Row)
    (columns : List String) : Option (List Row) × DataMaskerObj :=
  (maskData { cfg with sensitive_columns := self.sensitive_columns } data columns, self)

/-- The five constants a missing (`None`) value can mask to, one per typed
mask family plus the generic mask. -/
def safeMaskConstants : List String :=
  ["***@***.***", "***-***-****", "***-**-****", "****-****-****-****", "***"]

/-! ## Helper lemmas -/

theorem String.data_append' (a b : String) : (a ++ b).data = a.data ++ b.data := by
  cases a
  cases b
  rfl

theorem dangerMsg_ne_multi (s : String) : dangerMsg s ≠ multiStmtMsg := by
  intro h
  have h2 : (dangerMsg s).data = multiStmtMsg.data := by rw [h]
  rw [dangerMsg, String.data_append'] at h2
  have h3 := congrArg List.head? h2
  rw [List.head?_append_of_ne_nil] at h3
  · revert h3
    decide
  · decide

theorem not_mem_ite_singleton {c : Prop} [Decidable c] {a b : String} (hne : a ≠ b) :
    a ∉ (if c then [b] else []) := by
  split
  · simp [hne]
  · simp

theorem mapMO_isSome {α β : Type} (f : α → Option β) (l : List α)
    (h : ∀ a ∈ l, (f a).isSome = true) : (mapMO f l).isSome = true := by
  induction l with
  | nil => rfl
  | cons a as ih =>
      obtain ⟨b, hb⟩ := Option.isSome_iff_exists.1 (h a (List.mem_cons_self a as))
      obtain ⟨bs, hbs⟩ := Option.isSome_iff_exists.1
        (ih (fun x hx => h x (List.mem_cons_of_mem a hx)))
      simp [mapMO, hb, hbs]

/-! ## Claim theorems -/

/-- C1: for every SQL string that is non-empty after trimming and whose
upper-cased, trimmed form does not start with `SELECT`,
`SQLValidator.validate` under `allow_only_select=true` returns invalid
with exactly the single "only SELECT" violation; no other check runs. -/
theorem C1_non_select_single_violation (sql : String)
    (h1 : pyStrip sql ≠ "")
    (h2 : pyStartswith (pyStrip (pyUpper sql)) "SELECT" = false) :
    SQLValidator.validate true sql = (false, ["Only SELECT queries are allowed"]) := by
  have hne : sql ≠ "" := by
    intro h
    apply h1
    rw [h]
    rfl
  unfold SQLValidator.validate
  rw [if_neg, if_pos]
  · simp [h2]
  · simp [hne, h1]

/-- Witness for C1 at the concrete input `"DROP TABLE users"`. -/
theorem C1_non_select_single_violation_witness :
    pyStrip "DROP TABLE users" ≠ "" ∧
    pyStartswith (pyStrip (pyUpper "DROP TABLE users")) "SELECT" = false ∧
    SQLValidator.validate true "DROP TABLE users" =
      (false, ["Only SELECT queries are allowed"]) :=
  ⟨by decide, by decide,
    C1_non_select_single_violation "DROP TABLE users" (by decide) (by decide)⟩

/-- C2 counterexample: `"SELECT 1; SELECT 2;"` contains a semicolon that
is not the trailing character of the trimmed string, yet
`SQLValidator.validate` reports no multiple-statements violation — in
fact it accepts the query outright, because the check only fires when the
trimmed string does not end with a semicolon. -/
theorem C2_counterexample :
    pyIn ";" "SELECT 1; SELECT 2;" = true ∧
    SQLValidator.validate true "SELECT 1; SELECT 2;" = (true, []) ∧
    multiStmtMsg ∉ (SQLValidator.validate true "SELECT 1; SELECT 2;").2 := by
  refine ⟨by decide, by decide, ?_⟩
  decide

/-- C2 (amended): for every SQL string that passes the emptiness and
SELECT-prefix gates, the multiple-statements violation is reported exactly
when the string contains a semicolon AND the trimmed string does not end
with a semicolon; interior semicolons are not flagged when a trailing
semicolon is present. -/
theorem C2_multi_statement_amended (sql : String)
    (h1 : pyStrip sql ≠ "")
    (h2 : pyStartswith (pyStrip (pyUpper sql)) "SELECT" = true) :
    multiStmtMsg ∈ (SQLValidator.validate true sql).2 ↔
      (pyIn ";" sql = true ∧ pyEndswith (pyStrip sql) ";" = false) := by
  have hne : sql ≠ "" := by
    intro h
    apply h1
    rw [h]
    rfl
  unfold SQLValidator.validate
  rw [if_neg, if_neg]
  · simp only [List.mem_append]
    constructor
    · rintro (((((hd | hm) | hq) | hq2) | hl) | hu)
      · exact absurd (List.mem_map.1 hd) (by rintro ⟨p, _, hp⟩; exact dangerMsg_ne_multi p.1 hp)
      · revert hm
        split
        next hc =>
          intro _
          rw [Bool.and_eq_true] at hc
          refine ⟨hc.1, ?_⟩
          simpa using hc.2
        next =>
          intro hm
          exact absurd hm (by simp)
      · exact absurd hq (not_mem_ite_singleton (by decide))
      · exact absurd hq2 (not_mem_ite_singleton (by decide))
      · exact absurd hl (not_mem_ite_singleton (by decide))
      · exact absurd hu (not_mem_ite_singleton (by decide))
    · rintro ⟨ha, hb⟩
      refine Or.inl (Or.inl (Or.inl (Or.inl (Or.inr ?_))))
      have hcond : (pyIn ";" sql && !(pyEndswith (pyStrip sql) ";")) = true := by
        rw [ha, hb]
        rfl
      simp [hcond]
  · simp [h2]
  · simp [hne, h1]

/-- Witness for C2 (amended) at `"SELECT 1; SELECT 2"` (no trailing
semicolon, so the violation is reported). -/
theorem C2_multi_statement_amended_witness :
    multiStmtMsg ∈ (SQLValidator.validate true "SELECT 1; SELECT 2").2 := by
  have h := C2_multi_statement_amended "SELECT 1; SELECT 2" (by decide) (by decide)
  exact h.2 ⟨by decide, by decide⟩

/-- An empty BigQuery result (no rows, no bytes). -/
def bqEmpty : BqResult := ⟨[], [], 0, 0⟩

/-- C3: with audit logging enabled, a request whose SQL is rejected by the
validator produces TWO audit entries, not one: the validation branch logs
one entry and then raises `HTTPException`, which the handler's own broad
`except Exception` catches, logging a second entry — and re-raising a
generic 500 instead of the intended 400.  This contradicts the spec (and
the repo's integration test expecting a 400). -/
theorem C3_rejected_sql_two_audit_entries :
    (executeQuery defaultCfg "DROP TABLE users" (Except.ok bqEmpty)).2.length = 2 ∧
    (executeQuery defaultCfg "DROP TABLE users" (Except.ok bqEmpty)).2 =
      [AuditEvent.queryLog false (some "SQL validation failed"),
       AuditEvent.queryLog false (some (strOfExc (PyExc.http 400 "INVALID_QUERY"
         "Query validation failed" ["Only SELECT queries are allowed"])))] ∧
    (executeQuery defaultCfg "DROP TABLE users" (Except.ok bqEmpty)).1.status = 500 := by
  refine ⟨?_, ?_, ?_⟩ <;> rfl

/-- All calls of a run are allowed while the window still has room: if the
existing window and all upcoming instants lie inside one 60-second span
and the total count stays at most the ceiling, every call returns `true`
and the final window is the concatenation. -/
theorem runCalls_all_allowed (N : Nat) (lo : Int) :
    ∀ (ts st : List Int),
      (∀ t ∈ st, lo ≤ t ∧ t < lo + 60) →
      (∀ t ∈ ts, lo ≤ t ∧ t < lo + 60) →
      st.length + ts.length ≤ N →
      runCalls N st ts = (List.replicate ts.length true, st ++ ts) := by
  intro ts
  induction ts with
  | nil =>
      intro st _ _ _
      simp [runCalls]
  | cons t ts ih =>
      intro st hst hts hlen
      have hwt := hts t (List.mem_cons_self _ _)
      have hpr : st.filter (fun u => decide (t - 60 < u)) = st := by
        rw [List.filter_eq_self]
        intro u hu
        exact decide_eq_true (by have := (hst u hu).1; omega)
      have hlt : ¬ (N ≤ st.length) := by
        simp only [List.length_cons] at hlen
        omega
      have ih2 := ih (st ++ [t])
        (by
          intro u hu
          rcases List.mem_append.1 hu with h | h
          · exact hst u h
          · rw [List.mem_singleton.1 h]; exact hwt)
        (fun u hu => hts u (List.mem_cons_of_mem _ hu))
        (by simp only [List.length_append, List.length_cons,
              List.length_nil] at hlen ⊢; omega)
      simp only [runCalls, RateLimiter.isAllowed, hpr, if_neg hlt, ih2,
        List.length_cons, List.replicate_succ, List.append_assoc,
        List.singleton_append]

/-- C4: starting from an empty window, N calls for one identifier inside
one 60-second span (N = the configured ceiling) all return allowed; an
(N+1)-th call still inside the span returns not-allowed and leaves the
window unchanged (its instant is not appended); and once every recorded
instant is at least 60 seconds old, a new call is allowed again. -/
theorem C4_rate_limiter_window (N : Nat) (lo tDeny tAfter : Int) (ts : List Int)
    (hN : 1 ≤ N) (hlen : ts.length = N)
    (hwin : ∀ t ∈ ts, lo ≤ t ∧ t < lo + 60)
    (hDeny : lo ≤ tDeny ∧ tDeny < lo + 60)
    (hAfter : ∀ t ∈ ts, t + 60 ≤ tAfter) :
    (runCalls N [] ts).1 = List.replicate N true ∧
    RateLimiter.isAllowed N ts tDeny = (false, ts) ∧
    (RateLimiter.isAllowed N ts tAfter).1 = true := by
  refine ⟨?_, ?_, ?_⟩
  · rw [runCalls_all_allowed N lo ts [] (by simp) hwin (by simp [hlen])]
    rw [hlen]
  · unfold RateLimiter.isAllowed
    have hpr : ts.filter (fun u => decide (tDeny - 60 < u)) = ts := by
      rw [List.filter_eq_self]
      intro u hu
      exact decide_eq_true (by have := (hwin u hu).1; have := hDeny.2; omega)
    simp only [hpr]
    rw [if_pos (by omega)]
  · unfold RateLimiter.isAllowed
    have hpr : ts.filter (fun u => decide (tAfter - 60 < u)) = [] := by
      rw [List.filter_eq_nil_iff]
      intro u hu
      have := hAfter u hu
      simp only [decide_eq_true_eq]
      omega
    simp only [hpr]
    rw [if_neg (by simp; omega)]

/-- Witness for C4 with ceiling 2, calls at instants 0 and 10, a denied
call at 30 and an allowed call at 100. -/
theorem C4_rate_limiter_window_witness :
    (runCalls 2 [] [0, 10]).1 = List.replicate 2 true ∧
    RateLimiter.isAllowed 2 [0, 10] 30 = (false, [0, 10]) ∧
    (RateLimiter.isAllowed 2 [0, 10] 100).1 = true :=
  C4_rate_limiter_window 2 0 30 100 [0, 10] (by decide) (by decide)
    (by decide) (by decide) (by decide)

theorem append4_mem_right2 {α : Type} (a b c d : List α) (x : α) (hx : x ∈ b) :
    x ∈ a ++ b ++ c ++ d :=
  List.mem_append.2 (Or.inl (List.mem_append.2 (Or.inl (List.mem_append.2 (Or.inr hx)))))

theorem append4_isEmpty_false {α : Type} (a b c d : List α) (hb : b ≠ []) :
    (a ++ b ++ c ++ d).isEmpty = false := by
  obtain ⟨x, hx⟩ := List.exists_mem_of_ne_nil b hb
  have hmem := append4_mem_right2 a b c d x hx
  cases hL : a ++ b ++ c ++ d with
  | nil => rw [hL] at hmem; cases hmem
  | cons y ys => rfl

/-- C5 counterexample: `"show curl data"` matches the `\bcurl\s+` family
member, and `PromptValidator.validate` returns invalid — but its single
violation shows the capture-group tuple `('', '', '', '')` of the joined
regex's `findall`, and no violation names the matched text `curl `. -/
theorem C5_counterexample :
    promptFindAll "show curl data" = [("", "", "", "")] ∧
    msearch ([.wb] ++ litE "curl" ++ [.ws1]) "show curl data" = true ∧
    PromptValidator.validate "show curl data" =
      (false, [promptDangerMsg ("", "", "", "")]) ∧
    (∀ e ∈ (PromptValidator.validate "show curl data").2, pyIn "curl" e = false) := by
  refine ⟨by decide, by decide, by decide, by decide⟩

/-- C5 (amended): for every prompt on which the joined dangerous-pattern
regex finds at least one match, `validate` returns invalid, and for each
match the violation list contains the message built from the match's
capture-group tuple (not from the matched text). -/
theorem C5_dangerous_prompt_amended (prompt : String)
    (h : promptFindAll prompt ≠ []) :
    (PromptValidator.validate prompt).1 = false ∧
    ∀ g ∈ promptFindAll prompt,
      promptDangerMsg g ∈ (PromptValidator.validate prompt).2 := by
  constructor
  · show (PromptValidator.validate prompt).1 = false
    unfold PromptValidator.validate
    apply append4_isEmpty_false
    simpa using h
  · intro g hg
    show promptDangerMsg g ∈ (PromptValidator.validate prompt).2
    unfold PromptValidator.validate
    exact append4_mem_right2 _ _ _ _ _ (List.mem_map_of_mem _ hg)

/-- Witness for C5 (amended) at the prompt `"show curl data"`. -/
theorem C5_dangerous_prompt_amended_witness :
    (PromptValidator.validate "show curl data").1 = false ∧
    promptDangerMsg ("", "", "", "") ∈ (PromptValidator.validate "show curl data").2 :=
  ⟨(C5_dangerous_prompt_amended "show curl data" (by decide)).1,
   (C5_dangerous_prompt_amended "show curl data" (by decide)).2 ("", "", "", "") (by decide)⟩

/-- C6 counterexample: the code masks `alice@example.com` to
`al***@***.example.com` (the domain keeps its last TWO labels), not to the
`al***@***.com` the spec's example claims. -/
theorem C6_counterexample :
    maskData defaultCfg [[("email", PyVal.str "alice@example.com")]] ["email"] =
      some [[("email", PyVal.str "al***@***.example.com")]] ∧
    ("al***@***.example.com" : String) ≠ "al***@***.com" :=
  ⟨by decide, by decide⟩

/-- C6 (amended): with data masking enabled, masking the row
`{"email": "alice@example.com"}` with columns `["email"]` always yields
`{"email": "al***@***.example.com"}`: first two characters of the local
part plus `"***"`, and the domain collapsed to `"***."` plus its last two
labels. -/
theorem C6_email_mask_amended (cfg : Cfg) (h : cfg.enable_data_masking = true) :
    maskData cfg [[("email", PyVal.str "alice@example.com")]] ["email"] =
      some [[("email", PyVal.str "al***@***.example.com")]] := by
  have hs : isSensitiveColumn cfg "email" = true := by
    unfold isSensitiveColumn
    dsimp only
    have he : patEmail (pyLower "email") = true := by decide
    rw [he]
    simp
  have hmv : maskValue "email" (PyVal.str "alice@example.com") =
      some "al***@***.example.com" := by decide
  unfold maskData
  rw [if_neg (by simp [h])]
  simp [mapMO, List.zip, hs, hmv]

/-- Witness for C6 (amended) at the default configuration. -/
theorem C6_email_mask_amended_witness :
    maskData defaultCfg [[("email", PyVal.str "alice@example.com")]] ["email"] =
      some [[("email", PyVal.str "al***@***.example.com")]] :=
  C6_email_mask_amended defaultCfg rfl

theorem maskEmail_isSome (v : PyVal) : (maskEmail v).isSome = true := by
  unfold maskEmail
  split
  · rfl
  · dsimp only
    split
    · rfl
    · next h2 =>
      have hlen : (pySplit '@' (pyStr v).data).length = 2 := by omega
      obtain ⟨a, b, hab⟩ := List.length_eq_two.1 hlen
      rw [hab]
      rfl

theorem maskPhone_isSome (v : PyVal) : (maskPhone v).isSome = true := by
  unfold maskPhone
  split
  · rfl
  · dsimp only
    split <;> rfl

theorem maskCreditCard_isSome (v : PyVal) : (maskCreditCard v).isSome = true := by
  unfold maskCreditCard
  split
  · rfl
  · dsimp only
    split <;> rfl

theorem maskGeneric_isSome (v : PyVal) : (maskGeneric v).isSome = true := by
  unfold maskGeneric
  split
  · rfl
  · dsimp only
    split <;> rfl

theorem maskValue_isSome (col : String) (v : PyVal) : (maskValue col v).isSome = true := by
  unfold maskValue
  dsimp only
  split
  · exact maskEmail_isSome v
  · split
    · exact maskPhone_isSome v
    · split
      · rfl
      · split
        · exact maskCreditCard_isSome v
        · split
          · rfl
          · split
            · rfl
            · exact maskGeneric_isSome v

theorem maskData_isSome (cfg : Cfg) (data : List Row) (columns : List String) :
    (maskData cfg data columns).isSome = true := by
  unfold maskData
  split
  · rfl
  · apply mapMO_isSome
    intro row _
    apply mapMO_isSome
    intro p _
    split
    · obtain ⟨c, hc⟩ := Option.isSome_iff_exists.1 (maskValue_isSome p.1 p.2)
      simp [hc]
    · rfl

theorem maskValue_none_safe (col : String) :
    ∃ c ∈ safeMaskConstants, maskValue col PyVal.none = some c := by
  unfold maskValue
  dsimp only
  split
  · exact ⟨"***@***.***", by decide, rfl⟩
  · split
    · exact ⟨"***-***-****", by decide, rfl⟩
    · split
      · exact ⟨"***-**-****", by decide, rfl⟩
      · split
        · exact ⟨"****-****-****-****", by decide, rfl⟩
        · split
          · exact ⟨"***", by decide, rfl⟩
          · split
            · exact ⟨"***", by decide, rfl⟩
            · exact ⟨"***", by decide, rfl⟩

/-- C7: `mask_data` is total (the guarded list subscripts can never raise)
and deterministic (re-running the masker object mutates nothing and
returns identical output), and a `None` value in a sensitive column masks
to one of the fixed safe constants. -/
theorem C7_mask_total_deterministic (cfg : Cfg) (self : DataMaskerObj)
    (data : List Row) (columns : List String) :
    (maskData cfg data columns).isSome = true ∧
    ((maskDataS cfg self data columns).2 = self ∧
      (maskDataS cfg (maskDataS cfg self data columns).2 data columns).1 =
        (maskDataS cfg self data columns).1) ∧
    (∀ col, isSensitiveColumn cfg col = true →
      ∃ c ∈ safeMaskConstants, maskValue col PyVal.none = some c) :=
  ⟨maskData_isSome cfg data columns, ⟨rfl, rfl⟩,
   fun col _ => maskValue_none_safe col⟩

/-- Witness for C7 at the default configuration, a single-row input and
the sensitive column `email` holding `None`. -/
theorem C7_mask_total_deterministic_witness :
    (maskData defaultCfg [[("email", PyVal.none)]] ["email"]).isSome = true ∧
    ∃ c ∈ safeMaskConstants, maskValue "email" PyVal.none = some c :=
  ⟨(C7_mask_total_deterministic defaultCfg ⟨defaultCfg.sensitive_columns⟩
      [[("email", PyVal.none)]] ["email"]).1,
   (C7_mask_total_deterministic defaultCfg ⟨defaultCfg.sensitive_columns⟩
      [[("email", PyVal.none)]] ["email"]).2.2 "email" (by decide)⟩

/-- C8: with cost tracking enabled, a query processing exactly the
configured maximum is within limits (no error), and one processing
`limit + 1` bytes is rejected together with an error payload. -/
theorem C8_cost_boundary (cfg : Cfg) (max_bytes : Nat) (api_key : String)
    (h : cfg.enable_query_cost_tracking = true) :
    QueryCostTracker.checkCostLimits cfg max_bytes max_bytes api_key = (true, none) ∧
    (QueryCostTracker.checkCostLimits cfg max_bytes (max_bytes + 1) api_key).1 = false ∧
    (QueryCostTracker.checkCostLimits cfg max_bytes (max_bytes + 1) api_key).2 =
      some ⟨max_bytes + 1, max_bytes⟩ := by
  unfold QueryCostTracker.checkCostLimits
  rw [h]
  refine ⟨?_, ?_, ?_⟩ <;> simp

/-- Witness for C8 with a 100-byte ceiling at the default configuration. -/
theorem C8_cost_boundary_witness :
    QueryCostTracker.checkCostLimits defaultCfg 100 100 "key" = (true, none) ∧
    (QueryCostTracker.checkCostLimits defaultCfg 100 101 "key").1 = false ∧
    (QueryCostTracker.checkCostLimits defaultCfg 100 101 "key").2 = some ⟨101, 100⟩ :=
  C8_cost_boundary defaultCfg 100 "key" rfl

/-- C9: each validator, translated as a state transformer, returns its
object unchanged, so a second call on the same input yields the identical
result: validation mutates no hidden state. -/
theorem C9_validators_idempotent (sqlObj : SQLValidatorObj) (sql : String)
    (pObj : PromptValidatorObj) (prompt : String)
    (cfg : Cfg) (piiObj : PIIDetectorObj) (prompt2 : String) :
    ((SQLValidator.validateS sqlObj sql).2 = sqlObj ∧
      (SQLValidator.validateS (SQLValidator.validateS sqlObj sql).2 sql).1 =
        (SQLValidator.validateS sqlObj sql).1) ∧
    ((PromptValidator.validateS pObj prompt).2 = pObj ∧
      (PromptValidator.validateS (PromptValidator.validateS pObj prompt).2 prompt).1 =
        (PromptValidator.validateS pObj prompt).1) ∧
    ((PIIDetector.containsPiiRequestS cfg piiObj prompt2).2 = piiObj ∧
      (PIIDetector.containsPiiRequestS cfg
          (PIIDetector.containsPiiRequestS cfg piiObj prompt2).2 prompt2).1 =
        (PIIDetector.containsPiiRequestS cfg piiObj prompt2).1) :=
  ⟨⟨rfl, rfl⟩, ⟨rfl, rfl⟩, ⟨rfl, rfl⟩⟩

/-- C10: with PII detection disabled by configuration,
`contains_pii_request` returns `(false, [])` for every prompt — the
hard-stop PII block is entirely bypassed. -/
theorem C10_pii_disabled_bypasses (cfg : Cfg) (pii_keywords : List String)
    (prompt : String) (h : cfg.enable_pii_detection = false) :
    PIIDetector.containsPiiRequest cfg pii_keywords prompt = (false, []) := by
  unfold PIIDetector.containsPiiRequest
  rw [h]
  rfl

/-- Witness for C10 on a prompt that contains the configured PII keyword
`password`. -/
theorem C10_pii_disabled_bypasses_witness :
    pyIn "password" (pyLower "What is my password") = true ∧
    PIIDetector.containsPiiRequest { defaultCfg with enable_pii_detection := false }
      defaultCfg.pii_keywords "What is my password" = (false, []) :=
  ⟨by decide,
   C10_pii_disabled_bypasses { defaultCfg with enable_pii_detection := false }
     defaultCfg.pii_keywords "What is my password" rfl⟩

end CortexAI
